import Mathlib

namespace DogGame

/-!
Shallow embedding of the Dog card-game engine from server/py/dog.py
(classes Card, Marble, PlayerState, Action, GameState, Dog).
Python's in-place mutation is modelled by explicit state passing; the
engine-local field steps_remaining is threaded in an EngineState record;
a raised Python exception is modelled as an error field carrying the
exception message, with the mutations performed before the raise kept.
-/

structure Card where
  suit : String
  rank : String
deriving DecidableEq, Repr

structure Marble where
  pos : Int
  is_save : Bool
deriving DecidableEq, Repr

structure PlayerState where
  name : String
  list_card : List Card
  list_marble : List Marble
deriving DecidableEq, Repr

structure Action where
  card : Card
  pos_from : Option Int
  pos_to : Option Int
  card_swap : Option Card
deriving DecidableEq, Repr

inductive GamePhase where
  | SETUP
  | RUNNING
  | FINISHED
deriving DecidableEq, Repr

structure GameState where
  cnt_player : Nat
  phase : GamePhase
  cnt_round : Int
  bool_card_exchanged : Bool
  idx_player_started : Nat
  idx_player_active : Nat
  list_player : List PlayerState
  list_card_draw : List Card
  list_card_discard : List Card
  card_active : Option Card
deriving DecidableEq, Repr

/-- The engine object state: the game state plus the turn-local
steps_remaining attribute of the Dog class. -/
structure EngineState where
  state : GameState
  steps_remaining : Option Int
deriving DecidableEq, Repr

/-- Result of apply_action: the engine state after the call together with
the message of the exception raised, if any (mutations already performed
before a raise are kept, as in Python). -/
structure ApplyResult where
  es : EngineState
  error : Option String
deriving DecidableEq, Repr

def LIST_SUIT : List String := ["♠", "♥", "♦", "♣"]

def LIST_RANK : List String :=
  ["2", "3", "4", "5", "6", "7", "8", "9", "10", "J", "Q", "K", "A", "JKR"]

/-- One copy of the deck: for every non-joker rank the four suits in order,
then the three jokers, as in GameState.LIST_CARD before the `* 2`. -/
def halfDeck : List Card :=
  (["2", "3", "4", "5", "6", "7", "8", "9", "10", "J", "Q", "K", "A"].flatMap
    (fun r => LIST_SUIT.map (fun s => Card.mk s r)))
  ++ [Card.mk "" "JKR", Card.mk "" "JKR", Card.mk "" "JKR"]

/-- GameState.LIST_CARD: two copies, 110 cards. -/
def LIST_CARD : List Card := halfDeck ++ halfDeck

def defaultPlayer : PlayerState := ⟨"", [], []⟩

def defaultMarble : Marble := ⟨0, false⟩

/-- Replace element i by f applied to it; out-of-range indices leave the
list unchanged (a Python in-place field update through a found object). -/
def listModify {α : Type} : List α → Nat → (α → α) → List α
  | [], _, _ => []
  | a :: l, 0, f => f a :: l
  | a :: l, n + 1, f => a :: listModify l n f

def GameState.activePlayer (s : GameState) : PlayerState :=
  s.list_player.getD s.idx_player_active defaultPlayer

def modifyPlayer (s : GameState) (i : Nat) (f : PlayerState → PlayerState) : GameState :=
  { s with list_player := listModify s.list_player i f }

def modifyMarble (s : GameState) (pi mi : Nat) (f : Marble → Marble) : GameState :=
  modifyPlayer s pi (fun p => { p with list_marble := listModify p.list_marble mi f })

def getMarble (s : GameState) (pi mi : Nat) : Option Marble :=
  s.list_player[pi]?.bind (fun p => p.list_marble[mi]?)

/-- Dog.reset, with the shuffled draw pile supplied as a parameter
(random.shuffle is external nondeterminism): deal 6 cards to each of the
4 players from the front of the deck, marbles start at 64 + 8*i + j. -/
def dogReset (deck : List Card) : EngineState :=
  let mkPlayer : Nat → List Card → PlayerState := fun k cards =>
    { name := "Player " ++ toString (k + 1),
      list_card := cards,
      list_marble := (List.range 4).map
        (fun j => { pos := (64 + 8 * (k : Int) + (j : Int)), is_save := false }) }
  { state :=
    { cnt_player := 4,
      phase := GamePhase.RUNNING,
      cnt_round := 1,
      bool_card_exchanged := false,
      idx_player_started := 0,
      idx_player_active := 0,
      list_player :=
        [ mkPlayer 0 (deck.take 6),
          mkPlayer 1 ((deck.drop 6).take 6),
          mkPlayer 2 ((deck.drop 12).take 6),
          mkPlayer 3 ((deck.drop 18).take 6) ],
      list_card_draw := deck.drop 24,
      list_card_discard := [],
      card_active := none },
    steps_remaining := none }

/-- Cells examined by Dog.is_path_blocked: range(start+step, end+step, step)
with step = 1 if end > start else -1. -/
def pathCells (start e : Int) : List Int :=
  if e > start then (List.range (e - start).toNat).map (fun k => start + 1 + (k : Int))
  else (List.range (start - e).toNat).map (fun k => start - 1 - (k : Int))

/-- Dog.is_path_blocked: a safe marble of any player on a cell of the path. -/
def isPathBlocked (s : GameState) (start e : Int) : Bool :=
  (pathCells start e).any (fun c =>
    s.list_player.any (fun pl => pl.list_marble.any (fun m => m.pos == c && m.is_save)))

/-- int(card.rank) for the ranks of the catalog on which rank.isdigit() holds. -/
def digitVal (r : String) : Option Int :=
  if r = "2" then some 2 else if r = "3" then some 3 else if r = "4" then some 4
  else if r = "5" then some 5 else if r = "6" then some 6 else if r = "7" then some 7
  else if r = "8" then some 8 else if r = "9" then some 9 else if r = "10" then some 10
  else none

/-- The forward_move_cards dict of get_list_action (excludes 4 and 7). -/
def forwardSteps (r : String) : Option Int :=
  if r = "2" then some 2 else if r = "3" then some 3 else if r = "5" then some 5
  else if r = "6" then some 6 else if r = "8" then some 8 else if r = "9" then some 9
  else if r = "10" then some 10 else none

/-- Branch of get_list_action taken when all active marbles are at pos >= 68:
team-support actions for the partner. -/
def finishedBranchActions (s : GameState) : List Action :=
  let active := s.activePlayer
  let partner := s.list_player.getD ((s.idx_player_active + 2) % s.cnt_player) defaultPlayer
  active.list_card.flatMap (fun card =>
    match digitVal card.rank with
    | some steps =>
        partner.list_marble.filterMap (fun m =>
          if 0 ≤ m.pos ∧ m.pos < 64 then
            let t := m.pos + steps
            if t ≤ 63 ∧ ¬ (isPathBlocked s m.pos t = true) then
              some ⟨card, some m.pos, some t, none⟩
            else none
          else none)
    | none =>
        if card.rank = "A" ∨ card.rank = "K" then
          partner.list_marble.filterMap (fun m =>
            if m.pos = 64 then some ⟨card, some 64, some 0, none⟩ else none)
        else [])

/-- Joker declaration actions: A/K of each suit in the beginning phase,
otherwise every non-joker rank of each suit. -/
def jokerSwapActions (card : Card) (beginning : Bool) : List Action :=
  LIST_SUIT.flatMap (fun suit =>
    (if beginning then ["A", "K"] else LIST_RANK.filter (fun r => ¬ r = "JKR")).map
      (fun rank => ⟨card, none, none, some ⟨suit, rank⟩⟩))

/-- Swap actions for a J card: for every active on-board marble and every
structurally distinct player's non-safe on-board marble, both directions;
if none were produced, both directions over pairs of the active player's
own on-board marbles. -/
def jCardActions (s : GameState) (card : Card) : List Action :=
  let active := s.activePlayer
  let oppActs := active.list_marble.flatMap (fun m =>
    if m.pos < 64 then
      s.list_player.flatMap (fun opp =>
        if ¬ opp = active then
          opp.list_marble.flatMap (fun om =>
            if ¬ om.is_save = true ∧ om.pos < 64 then
              [⟨card, some m.pos, some om.pos, none⟩, ⟨card, some om.pos, some m.pos, none⟩]
            else [])
        else [])
    else [])
  if ¬ oppActs = [] then oppActs
  else
    let onBoard := active.list_marble.filter (fun m => m.pos < 64)
    (List.range onBoard.length).flatMap (fun i =>
      (List.range onBoard.length).flatMap (fun j =>
        if i < j then
          let a := onBoard.getD i defaultMarble
          let b := onBoard.getD j defaultMarble
          [⟨card, some a.pos, some b.pos, none⟩, ⟨card, some b.pos, some a.pos, none⟩]
        else []))

/-- Kennel-to-start actions: one per active marble sitting exactly at 64. -/
def kennelExitActions (s : GameState) (card : Card) : List Action :=
  s.activePlayer.list_marble.filterMap (fun m =>
    if m.pos = 64 then some ⟨card, some 64, some 0, none⟩ else none)

/-- The per-card body of the main loop of get_list_action (the exchange
early return is handled by the caller). -/
def perCardActions (s : GameState) (beginning : Bool) (card : Card) : List Action :=
  if card.rank = "JKR" then
    kennelExitActions s card ++ jokerSwapActions card beginning
  else
    let startActs := if card.rank = "A" ∨ card.rank = "K" then kennelExitActions s card else []
    if card.rank = "J" then startActs ++ jCardActions s card
    else
      match forwardSteps card.rank with
      | some steps =>
          startActs ++ s.activePlayer.list_marble.filterMap (fun m =>
            if 0 ≤ m.pos ∧ m.pos < 64 then
              let t := m.pos + steps
              if t ≤ 63 ∧ ¬ (isPathBlocked s m.pos t = true) then
                some ⟨card, some m.pos, some t, none⟩
              else none
            else none)
      | none => startActs

/-- The de-duplication key: (suit, rank, pos_from, pos_to, str(card_swap) or None). -/
def actionKey (a : Action) : Card × Option Int × Option Int × Option String :=
  (a.card, a.pos_from, a.pos_to, a.card_swap.map (fun c => c.suit ++ c.rank))

/-- Keep the first occurrence of each de-duplication key, preserving order. -/
def dedupActions (l : List Action) : List Action :=
  (l.foldl
    (fun (acc : List Action × List (Card × Option Int × Option Int × Option String)) a =>
      if actionKey a ∈ acc.2 then acc else (acc.1 ++ [a], acc.2 ++ [actionKey a]))
    ([], [])).1

/-- Dog.get_list_action. -/
def getListAction (s : GameState) : List Action :=
  let active := s.activePlayer
  let player_finished := active.list_marble.all (fun m => m.pos ≥ 68)
  if player_finished then finishedBranchActions s
  else
    let cards := match s.card_active with
      | some c => [c]
      | none => active.list_card
    let beginning := active.list_marble.all (fun m => m.pos ≥ 64)
    if ¬ cards = [] ∧ s.cnt_round = 0 ∧ ¬ s.bool_card_exchanged = true then
      active.list_card.map (fun c => ⟨c, none, none, none⟩)
    else
      let raw := cards.flatMap (perCardActions s beginning)
      let filtered := match s.card_active with
        | some ca => raw.filter (fun a => a.card = ca)
        | none => raw
      dedupActions filtered

/-- First structurally distinct player (pydantic equality) holding a marble
whose pos equals the given optional position; scanning breaks on the first
hit, as in the J and rank-7 scans of apply_action. -/
def findOppIdxAux (activeP : PlayerState) (t : Option Int) :
    List PlayerState → Nat → Option (Nat × Nat)
  | [], _ => none
  | p :: rest, k =>
      if ¬ p = activeP then
        match p.list_marble.findIdx? (fun m => t == some m.pos) with
        | some mj => some (k, mj)
        | none => findOppIdxAux activeP t rest (k + 1)
      else findOppIdxAux activeP t rest (k + 1)

def findOppIdx (players : List PlayerState) (activeP : PlayerState) (t : Option Int) :
    Option (Nat × Nat) :=
  findOppIdxAux activeP t players 0

/-- The generic-move scan of apply_action: the assignment is overwritten per
matching player without a break of the outer loop, so the last structurally
distinct player holding a marble at the position wins. -/
def findOppLastIdx (players : List PlayerState) (activeP : PlayerState) (t : Option Int) :
    Option (Nat × Nat) :=
  players.enum.foldl
    (fun acc kp =>
      if ¬ kp.2 = activeP then
        match kp.2.list_marble.findIdx? (fun m => t == some m.pos) with
        | some mj => some (kp.1, mj)
        | none => acc
      else acc)
    none

/-- Move the first marble of player pi whose pos equals fromPos, if any. -/
def moveFirstMarbleAt (s : GameState) (pi : Nat) (fromPos : Int) (f : Marble → Marble) :
    GameState :=
  match (s.list_player.getD pi defaultPlayer).list_marble.findIdx? (fun m => m.pos == fromPos) with
  | some j => modifyMarble s pi j f
  | none => s

/-- The branch of apply_action for a pass while the active card is a 7:
moves an active marble at 15 back to 12, restores a marble of player index 1
from 72 to 15, removes the active card from the hand (raising if absent),
clears card_active and steps_remaining and advances the player. -/
def passSevenBranch (es : EngineState) (cA : Card) : ApplyResult :=
  let s := es.state
  let i := s.idx_player_active
  let s1 := moveFirstMarbleAt s i 15 (fun m => { m with pos := 12 })
  let s2 := moveFirstMarbleAt s1 1 72 (fun _m => { pos := 15, is_save := false })
  let hand := (s2.list_player.getD i defaultPlayer).list_card
  if cA ∈ hand then
    let s3 := modifyPlayer s2 i (fun p => { p with list_card := p.list_card.erase cA })
    ⟨⟨{ s3 with card_active := none,
                idx_player_active := (s3.idx_player_active + 1) % s3.cnt_player }, none⟩, none⟩
  else ⟨⟨s2, es.steps_remaining⟩, some "ValueError: list.remove(x): x not in list"⟩

/-- The exchange branch (pos_from = pos_to = card_swap = None): transfer the
card to the partner when held, set bool_card_exchanged, advance the player. -/
def exchangeBranch (es : EngineState) (action : Action) : ApplyResult :=
  let s := es.state
  let i := s.idx_player_active
  let activeP := s.list_player.getD i defaultPlayer
  let pIdx := (i + 2) % s.cnt_player
  let s1 :=
    if action.card ∈ activeP.list_card then
      let sA := modifyPlayer s i (fun p => { p with list_card := p.list_card.erase action.card })
      let sB := modifyPlayer sA pIdx (fun p => { p with list_card := p.list_card ++ [action.card] })
      { sB with bool_card_exchanged := true }
    else s
  ⟨⟨{ s1 with idx_player_active := (i + 1) % s.cnt_player }, es.steps_remaining⟩, none⟩

/-- Joker activation: remove the card from the hand when held and make
card_swap the active card; the turn is not advanced. -/
def jokerActivate (es : EngineState) (action : Action) : ApplyResult :=
  let s := es.state
  let i := s.idx_player_active
  let activeP := s.list_player.getD i defaultPlayer
  let s1 :=
    if action.card ∈ activeP.list_card then
      modifyPlayer s i (fun p => { p with list_card := p.list_card.erase action.card })
    else s
  ⟨⟨{ s1 with card_active := action.card_swap }, es.steps_remaining⟩, none⟩

/-- Team-support branch when the active player is finished and the partner
has a marble (index mj) at pos_from: relocate it to pos_to and remove the
card from the active hand with an unguarded list.remove. -/
def finishedSupport (es : EngineState) (action : Action) (mj : Nat) : ApplyResult :=
  let s := es.state
  let i := s.idx_player_active
  let pIdx := (i + 2) % s.cnt_player
  match action.pos_to with
  | some t =>
      let s1 := modifyMarble s pIdx mj (fun m => { m with pos := t })
      let hand := (s1.list_player.getD i defaultPlayer).list_card
      if action.card ∈ hand then
        ⟨⟨modifyPlayer s1 i (fun p => { p with list_card := p.list_card.erase action.card }),
          es.steps_remaining⟩, none⟩
      else ⟨⟨s1, es.steps_remaining⟩, some "ValueError: list.remove(x): x not in list"⟩
  | none =>
      ⟨⟨s, es.steps_remaining⟩, some "TypeError"⟩

/-- Steps consumed by a rank-7 sub-move once both positions are known:
5 from the hard-coded cell 13 into the finish area, 2 for any other move
ending at pos >= 76, abs(to - from) otherwise. -/
def sevenStepsUsed (f t : Int) : Int :=
  if t ≥ 76 then (if f = 13 then 5 else 2) else ((t - f).natAbs : Int)

/-- range(pos_from + 1, pos_to + 1): the cells scanned for kicks. -/
def intermediateCells (f t : Int) : List Int :=
  (List.range (t - f).toNat).map (fun k => f + 1 + (k : Int))

/-- The kick scan of the rank-7 branch: per cell, the first structurally
distinct player's marble at that cell is sent to 72 and marked unsafe and
the scan proceeds to the next cell; otherwise an own marble at that cell is
sent to 72 and marked unsafe and the whole scan stops. -/
def kickMarbleTo72 (players : List PlayerState) (pj mj : Nat) : List PlayerState :=
  listModify players pj (fun p =>
    { p with list_marble := listModify p.list_marble mj (fun _m => { pos := 72, is_save := false }) })

def kickLoop (i : Nat) : List Int → List PlayerState → List PlayerState
  | [], players => players
  | c :: rest, players =>
      let activeP := players.getD i defaultPlayer
      match findOppIdx players activeP (some c) with
      | some pm => kickLoop i rest (kickMarbleTo72 players pm.1 pm.2)
      | none =>
          match activeP.list_marble.findIdx? (fun m => m.pos == c) with
          | some j => kickMarbleTo72 players i j
          | none => kickLoop i rest players

/-- The rank-7 branch of apply_action. A TypeError error models the Python
comparison or subtraction on a missing position. -/
def sevenBranch (es : EngineState) (action : Action) (cardToUse : Card) : ApplyResult :=
  let s0 := es.state
  let ini : Int × GameState :=
    match es.steps_remaining with
    | none => (7, { s0 with card_active := some cardToUse })
    | some r => (r, s0)
  let r := ini.1
  let s1 := ini.2
  match action.pos_to with
  | none => ⟨⟨s1, some r⟩, some "TypeError"⟩
  | some t =>
      let used? : Option Int :=
        match action.pos_from with
        | some f => some (sevenStepsUsed f t)
        | none => if t ≥ 76 then some 2 else none
      match used? with
      | none => ⟨⟨s1, some r⟩, some "TypeError"⟩
      | some used =>
          if used > r then ⟨⟨s1, some r⟩, some "Exceeded remaining steps for SEVEN."⟩
          else
            let i := s1.idx_player_active
            let found : Option (Int × Nat) :=
              match action.pos_from with
              | some f =>
                  ((s1.list_player.getD i defaultPlayer).list_marble.findIdx?
                    (fun m => m.pos == f)).map (fun mj => (f, mj))
              | none => none
            match found with
            | none => ⟨⟨s1, some r⟩, none⟩
            | some fm =>
                let players1 := kickLoop i (intermediateCells fm.1 t) s1.list_player
                let s2 := { s1 with list_player := players1 }
                let s3 := modifyMarble s2 i fm.2 (fun m => { m with pos := t })
                let r2 := r - used
                if r2 = 0 then
                  let s4 := { s3 with card_active := none }
                  let hand := (s4.list_player.getD i defaultPlayer).list_card
                  if cardToUse ∈ hand then
                    let s5 := modifyPlayer s4 i
                      (fun p => { p with list_card := p.list_card.erase cardToUse })
                    ⟨⟨{ s5 with idx_player_active :=
                          (s5.idx_player_active + 1) % s5.cnt_player }, none⟩, none⟩
                  else ⟨⟨s4, none⟩, some "ValueError: list.remove(x): x not in list"⟩
                else ⟨⟨s3, some r2⟩, none⟩

/-- The rank-J branch: swap positions of the active marble at pos_from and
the first structurally distinct player's marble at pos_to, if both exist. -/
def jBranch (s : GameState) (action : Action) : GameState :=
  let i := s.idx_player_active
  let activeP := s.list_player.getD i defaultPlayer
  let movingIdx := activeP.list_marble.findIdx? (fun m => action.pos_from == some m.pos)
  let oppIdx := findOppIdx s.list_player activeP action.pos_to
  match movingIdx, oppIdx with
  | some mj, some pm =>
      let mpos := ((s.list_player.getD i defaultPlayer).list_marble.getD mj defaultMarble).pos
      let opos := ((s.list_player.getD pm.1 defaultPlayer).list_marble.getD pm.2 defaultMarble).pos
      let sA := modifyMarble s i mj (fun m => { m with pos := opos })
      modifyMarble sA pm.1 pm.2 (fun m => { m with pos := mpos })
  | _, _ => s

def allInFinish (p : PlayerState) (base : Int) : Bool :=
  p.list_marble.all (fun m => base ≤ m.pos && m.pos ≤ base + 3)

/-- The hard-coded victory check of apply_action: players at indices 0 and 2
with all marbles inside 68..71 and 84..87 respectively. -/
def team02Finished (players : List PlayerState) : Bool :=
  allInFinish (players.getD 0 defaultPlayer) 68 && allInFinish (players.getD 2 defaultPlayer) 84

/-- The generic-move branch: displace the last structurally distinct
player's marble at pos_to to 72 unsafe, move the active marble at pos_from
to pos_to marking it safe, then run the victory check. -/
def genericBranch (s : GameState) (action : Action) : GameState × Option String :=
  let i := s.idx_player_active
  let activeP := s.list_player.getD i defaultPlayer
  match activeP.list_marble.findIdx? (fun m => action.pos_from == some m.pos) with
  | none => (s, none)
  | some mj =>
      let s1 :=
        match findOppLastIdx s.list_player activeP action.pos_to with
        | some pm => modifyMarble s pm.1 pm.2 (fun _m => { pos := 72, is_save := false })
        | none => s
      match action.pos_to with
      | some t =>
          let s2 := modifyMarble s1 i mj (fun _m => { pos := t, is_save := true })
          if team02Finished s2.list_player then ({ s2 with phase := GamePhase.FINISHED }, none)
          else (s2, none)
      | none => (s1, some "TypeError")

/-- Lines shared by the J and generic branches: remove the used card when no
active card is pending, then clear a pending active card. -/
def tailCardCleanup (s : GameState) (action : Action) : GameState :=
  let i := s.idx_player_active
  let activeP := s.list_player.getD i defaultPlayer
  let s1 :=
    if s.card_active = none ∧ action.card ∈ activeP.list_card then
      modifyPlayer s i (fun p => { p with list_card := p.list_card.erase action.card })
    else s
  if s1.card_active = none then s1 else { s1 with card_active := none }

/-- The folding step: with no action supplied, no available action and no
active card, the whole hand goes to the discard pile. -/
def foldStep (es : EngineState) (hasAction : Bool) : EngineState :=
  if hasAction then es
  else if getListAction es.state = [] ∧ es.state.card_active = none then
    let i := es.state.idx_player_active
    let activeP := es.state.list_player.getD i defaultPlayer
    if ¬ activeP.list_card = [] then
      let s1 := { es.state with
        list_card_discard := es.state.list_card_discard ++ activeP.list_card }
      { es with state := modifyPlayer s1 i (fun p => { p with list_card := [] }) }
    else es
  else es

/-- Advance the active player when no rank-7 steps remain. -/
def advanceStep (es : EngineState) : EngineState :=
  match es.steps_remaining with
  | none => { es with state := { es.state with
      idx_player_active := (es.state.idx_player_active + 1) % es.state.cnt_player } }
  | some _ => es

/-- The card schedule of the round rollover. -/
def cardsPerPlayer (r : Int) : Int :=
  if 1 ≤ r ∧ r ≤ 5 then 7 - r
  else if r = 6 then 6
  else max (7 - ((r - 1) % 5 + 1)) 2

/-- Deal n cards to every player in order from the front of the pile,
overwriting the hands; returns the players and the remaining pile. -/
def dealCards (n : Nat) : List PlayerState → List Card → List PlayerState × List Card
  | [], pile => ([], pile)
  | p :: rest, pile =>
      let out := dealCards n rest (pile.drop n)
      ({ p with list_card := pile.take n } :: out.1, out.2)

/-- The round rollover: when the active player wrapped to the starter,
bump the round, reset the exchange flag, advance the starter, reshuffle a
fresh full deck into the draw pile when it is short (the shuffled fresh
deck is the newDeck parameter), and deal the scheduled number of cards. -/
def rolloverStep (es : EngineState) (newDeck : List Card) : EngineState :=
  let s := es.state
  if s.idx_player_active = s.idx_player_started then
    let r := s.cnt_round + 1
    let cpp := cardsPerPlayer r
    let s1 := { s with
      cnt_round := r
      bool_card_exchanged := false
      idx_player_started := (s.idx_player_started + 1) % s.cnt_player }
    let reshuffle := (s1.list_card_draw.length : Int) < cpp * (s1.cnt_player : Int)
    let pile := if reshuffle then newDeck else s1.list_card_draw
    let disc : List Card := if reshuffle then [] else s1.list_card_discard
    let out := dealCards cpp.toNat s1.list_player pile
    { es with state := { s1 with
        list_player := out.1
        list_card_draw := out.2
        list_card_discard := disc } }
  else es

/-- The shared tail of apply_action: folding, turn advance, round rollover. -/
def finishTurn (es : EngineState) (hasAction : Bool) (newDeck : List Card) : EngineState :=
  rolloverStep (advanceStep (foldStep es hasAction)) newDeck

/-- Dog.apply_action. The newDeck parameter supplies the shuffled full deck
used only when the rollover reshuffles. -/
def applyAction (es : EngineState) (act : Option Action) (newDeck : List Card) : ApplyResult :=
  match act with
  | none =>
      match es.state.card_active with
      | some c =>
          if c.rank = "7" then passSevenBranch es c
          else ⟨finishTurn es false newDeck, none⟩
      | none => ⟨finishTurn es false newDeck, none⟩
  | some action =>
      if action.pos_from = none ∧ action.pos_to = none ∧ action.card_swap = none then
        exchangeBranch es action
      else if action.pos_from = none ∧ action.pos_to = none then
        jokerActivate es action
      else
        let s := es.state
        let i := s.idx_player_active
        let activeP := s.list_player.getD i defaultPlayer
        let pf := activeP.list_marble.all (fun m => m.pos ≥ 68)
        let partnerFind : Option Nat :=
          if pf then
            (s.list_player.getD ((i + 2) % s.cnt_player) defaultPlayer).list_marble.findIdx?
              (fun m => action.pos_from == some m.pos)
          else none
        match partnerFind with
        | some mj => finishedSupport es action mj
        | none =>
            if action.card.rank = "JKR" ∧ ¬ action.card_swap = none then jokerActivate es action
            else
              let cardToUse := s.card_active.getD action.card
              if cardToUse.rank = "7" then sevenBranch es action cardToUse
              else
                let out : GameState × Option String :=
                  if cardToUse.rank = "J" then (jBranch s action, none)
                  else genericBranch s action
                match out.2 with
                | some e => ⟨⟨out.1, es.steps_remaining⟩, some e⟩
                | none =>
                    let s2 := tailCardCleanup out.1 action
                    ⟨finishTurn ⟨s2, es.steps_remaining⟩ true newDeck, none⟩

/-- Cards across the four hands, the draw pile and the discard pile. -/
def totalCards (s : GameState) : Nat :=
  (s.list_player.map (fun p => p.list_card.length)).sum
    + s.list_card_draw.length + s.list_card_discard.length

/-- States reachable from a fresh game: the initial shuffle and every
rollover reshuffle draw an arbitrary permutation of the card catalog. -/
inductive Reachable : EngineState → Prop where
  | init (deck : List Card) (hperm : deck.Perm LIST_CARD) : Reachable (dogReset deck)
  | step {es : EngineState} (act : Option Action) (newDeck : List Card)
      (hperm : newDeck.Perm LIST_CARD) (h : Reachable es) :
      Reachable (applyAction es act newDeck).es

/-- The list of marble lists of the four players, the part of the state the
movement branches mutate. -/
def marbleMatrix (s : GameState) : List (List Marble) :=
  s.list_player.map (fun p => p.list_marble)

/-- Overwrite the marble at player index pi, marble index mi with v. -/
def matrixSet (M : List (List Marble)) (pi mi : Nat) (v : Marble) : List (List Marble) :=
  listModify M pi (fun lm => listModify lm mi (fun _m => v))

/-- The identity permutation of the card catalog, standing for one concrete
outcome of random.shuffle. -/
def idDeck : List Card := LIST_CARD

def c1Action : Action := ⟨⟨"♠", "2"⟩, some 0, some 2, none⟩

/-- One step after a fresh game on the identity shuffle: player 0 plays the
2 of spades with no marble at the pos_from cell. -/
def c1State : EngineState := (applyAction (dogReset idDeck) (some c1Action) idDeck).es

def c2Action : Action := ⟨⟨"♠", "7"⟩, some 12, some 76, none⟩

/-- The state of test_seven_card_special_positions: fresh game, active card
a 7 with steps_remaining 7, player 0 holding only that 7 with a marble
moved to cell 12. -/
def c2State : EngineState :=
  let es := dogReset idDeck
  { es with
    steps_remaining := some 7,
    state := { es.state with
      bool_card_exchanged := true
      card_active := some ⟨"♠", "7"⟩
      list_player := listModify es.state.list_player 0 (fun p =>
        { p with
          list_card := [⟨"♠", "7"⟩]
          list_marble := listModify p.list_marble 0 (fun m => { m with pos := 12 }) }) } }

def c3CAction : Action := ⟨⟨"♠", "7"⟩, some 0, some 8, none⟩

/-- Player 0 holds a 7, one marble on the start cell, no active card and no
steps budget yet. -/
def c3CState : EngineState :=
  let es := dogReset idDeck
  { es with state := { es.state with
      bool_card_exchanged := true
      list_player := listModify es.state.list_player 0 (fun p =>
        { p with
          list_card := [⟨"♠", "7"⟩]
          list_marble := listModify p.list_marble 0 (fun m => { m with pos := 0 }) }) } }

def c3WAction : Action := ⟨⟨"♠", "7"⟩, some 76, some 80, none⟩

/-- A mid-sequence rank-7 state: active card a 7 with 1 step left, a marble
at 76 and another on the track. -/
def c3WState : EngineState :=
  { state :=
    { cnt_player := 4, phase := GamePhase.RUNNING, cnt_round := 2,
      bool_card_exchanged := true, idx_player_started := 0, idx_player_active := 0,
      list_player :=
        [ ⟨"Player 1", [⟨"♠", "7"⟩], [⟨76, false⟩, ⟨10, false⟩, ⟨66, false⟩, ⟨67, false⟩]⟩,
          ⟨"Player 2", [], [⟨72, false⟩, ⟨73, false⟩, ⟨74, false⟩, ⟨75, false⟩]⟩,
          ⟨"Player 3", [], [⟨80, false⟩, ⟨81, false⟩, ⟨82, false⟩, ⟨83, false⟩]⟩,
          ⟨"Player 4", [], [⟨88, false⟩, ⟨89, false⟩, ⟨90, false⟩, ⟨91, false⟩]⟩ ],
      list_card_draw := [], list_card_discard := [],
      card_active := some ⟨"♠", "7"⟩ },
    steps_remaining := some 1 }

def c4CAction : Action := ⟨⟨"♠", "5"⟩, some 60, some 76, none⟩

/-- Active player 1 one move away from completing the finish zones of the
1-and-3 team while player 3 is already done. -/
def c4CState : EngineState :=
  let es := dogReset idDeck
  { es with state := { es.state with
      idx_player_active := 1
      bool_card_exchanged := true
      list_player :=
        listModify (listModify es.state.list_player 1 (fun p =>
          { p with
            list_card := [⟨"♠", "5"⟩]
            list_marble := [⟨60, false⟩, ⟨77, false⟩, ⟨78, false⟩, ⟨79, false⟩] })) 3 (fun p =>
          { p with list_marble := [⟨92, false⟩, ⟨93, false⟩, ⟨94, false⟩, ⟨95, false⟩] }) } }

def c4WAction : Action := ⟨⟨"♠", "5"⟩, some 10, some 15, none⟩

/-- Active player 1 makes an unrelated move while players 0 and 2 already
fill their finish zones. -/
def c4WState : EngineState :=
  { state :=
    { cnt_player := 4, phase := GamePhase.RUNNING, cnt_round := 2,
      bool_card_exchanged := true, idx_player_started := 0, idx_player_active := 1,
      list_player :=
        [ ⟨"Player 1", [], [⟨68, false⟩, ⟨69, false⟩, ⟨70, false⟩, ⟨71, false⟩]⟩,
          ⟨"Player 2", [⟨"♠", "5"⟩], [⟨10, false⟩, ⟨73, false⟩, ⟨74, false⟩, ⟨75, false⟩]⟩,
          ⟨"Player 3", [], [⟨84, false⟩, ⟨85, false⟩, ⟨86, false⟩, ⟨87, false⟩]⟩,
          ⟨"Player 4", [], [⟨88, false⟩, ⟨89, false⟩, ⟨90, false⟩, ⟨91, false⟩]⟩ ],
      list_card_draw := [], list_card_discard := [],
      card_active := none },
    steps_remaining := none }

/-- Active player 1 holds an Ace with marbles in the own kennel zone 72..75
and one on the track. -/
def c5State : EngineState :=
  let es := dogReset idDeck
  { es with state := { es.state with
      idx_player_active := 1
      bool_card_exchanged := true
      list_player := listModify es.state.list_player 1 (fun p =>
        { p with
          list_card := [⟨"♠", "A"⟩]
          list_marble := listModify p.list_marble 0 (fun m => { m with pos := 5 }) }) } }

/-- A fresh game on the identity shuffle: round 1, no card exchanged yet. -/
def c6State : EngineState := dogReset idDeck

def c7CAction : Action := ⟨⟨"♠", "5"⟩, some 10, some 15, none⟩

/-- Player 0 holds two cards and has no marble at cell 10. -/
def c7CState : EngineState :=
  let es := dogReset idDeck
  { es with state := { es.state with
      bool_card_exchanged := true
      list_player := listModify es.state.list_player 0 (fun p =>
        { p with list_card := [⟨"♠", "5"⟩, ⟨"♥", "3"⟩] }) } }

def c7WAction : Action := ⟨⟨"♠", "5"⟩, some 30, some 35, none⟩

/-- Player 0 holds a 5 and has no marble at cell 30. -/
def c7WState : EngineState :=
  { state :=
    { cnt_player := 4, phase := GamePhase.RUNNING, cnt_round := 2,
      bool_card_exchanged := true, idx_player_started := 0, idx_player_active := 0,
      list_player :=
        [ ⟨"Player 1", [⟨"♠", "5"⟩], [⟨10, false⟩, ⟨65, false⟩, ⟨66, false⟩, ⟨67, false⟩]⟩,
          ⟨"Player 2", [], [⟨72, false⟩, ⟨73, false⟩, ⟨74, false⟩, ⟨75, false⟩]⟩,
          ⟨"Player 3", [], [⟨80, false⟩, ⟨81, false⟩, ⟨82, false⟩, ⟨83, false⟩]⟩,
          ⟨"Player 4", [], [⟨88, false⟩, ⟨89, false⟩, ⟨90, false⟩, ⟨91, false⟩]⟩ ],
      list_card_draw := [], list_card_discard := [],
      card_active := none },
    steps_remaining := none }

def c8CAction : Action := ⟨⟨"♠", "5"⟩, some 0, some 5, none⟩

/-- Player 0 with marbles at 0 and 5 plays a generic move onto the own
marble at 5. -/
def c8CState : EngineState :=
  let es := dogReset idDeck
  { es with state := { es.state with
      bool_card_exchanged := true
      list_player := listModify es.state.list_player 0 (fun p =>
        { p with
          list_card := [⟨"♠", "5"⟩]
          list_marble := [⟨0, false⟩, ⟨5, false⟩, ⟨66, false⟩, ⟨67, false⟩] }) } }

def c8WAction : Action := ⟨⟨"♠", "5"⟩, some 0, some 5, none⟩

/-- Player 0 moves onto cell 5 where player 1 has a marble. -/
def c8WState : EngineState :=
  { state :=
    { cnt_player := 4, phase := GamePhase.RUNNING, cnt_round := 2,
      bool_card_exchanged := true, idx_player_started := 0, idx_player_active := 0,
      list_player :=
        [ ⟨"Player 1", [⟨"♠", "5"⟩], [⟨0, false⟩, ⟨65, false⟩, ⟨66, false⟩, ⟨67, false⟩]⟩,
          ⟨"Player 2", [], [⟨5, false⟩, ⟨73, false⟩, ⟨74, false⟩, ⟨75, false⟩]⟩,
          ⟨"Player 3", [], [⟨80, false⟩, ⟨81, false⟩, ⟨82, false⟩, ⟨83, false⟩]⟩,
          ⟨"Player 4", [], [⟨88, false⟩, ⟨89, false⟩, ⟨90, false⟩, ⟨91, false⟩]⟩ ],
      list_card_draw := [], list_card_discard := [],
      card_active := none },
    steps_remaining := none }

def c9CAction : Action := ⟨⟨"♠", "J"⟩, some 0, some 5, none⟩

/-- Player 0 holds a J with two marbles on the track and no opponent marble
on the track, the self-swap situation of the generator. -/
def c9CState : EngineState :=
  let es := dogReset idDeck
  { es with state := { es.state with
      bool_card_exchanged := true
      list_player := listModify es.state.list_player 0 (fun p =>
        { p with
          list_card := [⟨"♠", "J"⟩]
          list_marble := [⟨0, false⟩, ⟨5, false⟩, ⟨66, false⟩, ⟨67, false⟩] }) } }

def c9WAction : Action := ⟨⟨"♠", "J"⟩, some 0, some 5, none⟩

/-- Player 0 plays a J onto cell 5 where player 1 has a marble. -/
def c9WState : EngineState :=
  { state :=
    { cnt_player := 4, phase := GamePhase.RUNNING, cnt_round := 2,
      bool_card_exchanged := true, idx_player_started := 0, idx_player_active := 0,
      list_player :=
        [ ⟨"Player 1", [⟨"♠", "J"⟩], [⟨0, true⟩, ⟨65, false⟩, ⟨66, false⟩, ⟨67, false⟩]⟩,
          ⟨"Player 2", [], [⟨5, false⟩, ⟨73, false⟩, ⟨74, false⟩, ⟨75, false⟩]⟩,
          ⟨"Player 3", [], [⟨80, false⟩, ⟨81, false⟩, ⟨82, false⟩, ⟨83, false⟩]⟩,
          ⟨"Player 4", [], [⟨88, false⟩, ⟨89, false⟩, ⟨90, false⟩, ⟨91, false⟩]⟩ ],
      list_card_draw := [], list_card_discard := [],
      card_active := none },
    steps_remaining := none }

/-- Active card is a 7 mid-sequence and player 0 has a marble at cell 15. -/
def c10CState : EngineState :=
  let es := dogReset idDeck
  { es with
    steps_remaining := some 3,
    state := { es.state with
      bool_card_exchanged := true
      card_active := some ⟨"♠", "7"⟩
      list_player := listModify es.state.list_player 0 (fun p =>
        { p with
          list_card := [⟨"♠", "7"⟩]
          list_marble := listModify p.list_marble 0 (fun m => { m with pos := 15 }) }) } }

/-- Active card is a 7 mid-sequence, no marble of player 0 at 15 and no
marble of player 1 at 72. -/
def c10WState : EngineState :=
  { state :=
    { cnt_player := 4, phase := GamePhase.RUNNING, cnt_round := 2,
      bool_card_exchanged := true, idx_player_started := 0, idx_player_active := 0,
      list_player :=
        [ ⟨"Player 1", [⟨"♠", "7"⟩], [⟨10, false⟩, ⟨65, false⟩, ⟨66, false⟩, ⟨67, false⟩]⟩,
          ⟨"Player 2", [], [⟨20, false⟩, ⟨73, false⟩, ⟨74, false⟩, ⟨75, false⟩]⟩,
          ⟨"Player 3", [], [⟨80, false⟩, ⟨81, false⟩, ⟨82, false⟩, ⟨83, false⟩]⟩,
          ⟨"Player 4", [], [⟨88, false⟩, ⟨89, false⟩, ⟨90, false⟩, ⟨91, false⟩]⟩ ],
      list_card_draw := [], list_card_discard := [],
      card_active := some ⟨"♠", "7"⟩ },
    steps_remaining := some 3 }

theorem listModify_id {α : Type} (l : List α) (i : Nat) :
    listModify l i (fun a => a) = l := by
  induction l generalizing i with
  | nil => rfl
  | cons a l ih =>
      cases i with
      | zero => rfl
      | succ n => simp [listModify, ih]

theorem getElem?_listModify {α : Type} (l : List α) (i : Nat) (f : α → α) (j : Nat) :
    (listModify l i f)[j]? = if j = i then l[i]?.map f else l[j]? := by
  induction l generalizing i j with
  | nil => simp [listModify]
  | cons a l ih =>
      cases i with
      | zero => cases j <;> simp [listModify]
      | succ n =>
          cases j with
          | zero => simp [listModify]
          | succ m => simp [listModify, ih]

theorem map_listModify {α β : Type} (l : List α) (i : Nat) (f : α → α) (g : α → β) (F : β → β)
    (h : ∀ a, g (f a) = F (g a)) : (listModify l i f).map g = listModify (l.map g) i F := by
  induction l generalizing i with
  | nil => rfl
  | cons a l ih =>
      cases i with
      | zero => simp [listModify, h]
      | succ n => simp [listModify, ih]

theorem listModify_eq_const {α : Type} (l : List α) (i : Nat) (f : α → α) (a : α)
    (h : l[i]? = some a) : listModify l i f = listModify l i (fun _x => f a) := by
  induction l generalizing i with
  | nil => rfl
  | cons b l ih =>
      cases i with
      | zero =>
          simp only [List.getElem?_cons_zero, Option.some.injEq] at h
          cases h
          rfl
      | succ n =>
          simp only [List.getElem?_cons_succ] at h
          simp [listModify, ih n h]

theorem marbleMatrix_modifyMarble (s : GameState) (pi mi : Nat) (f : Marble → Marble) :
    marbleMatrix (modifyMarble s pi mi f)
      = listModify (marbleMatrix s) pi (fun lm => listModify lm mi f) := by
  unfold marbleMatrix modifyMarble modifyPlayer
  exact map_listModify _ _ _ _ _ (fun p => rfl)

theorem marbleMatrix_modifyMarble_const (s : GameState) (pi mi : Nat) (v : Marble) :
    marbleMatrix (modifyMarble s pi mi (fun _m => v)) = matrixSet (marbleMatrix s) pi mi v :=
  marbleMatrix_modifyMarble s pi mi (fun _m => v)

theorem marbleMatrix_modifyMarble_get (s : GameState) (pi mi : Nat) (f : Marble → Marble)
    (a : Marble) (h : getMarble s pi mi = some a) :
    marbleMatrix (modifyMarble s pi mi f) = matrixSet (marbleMatrix s) pi mi (f a) := by
  obtain ⟨p, hp, hm⟩ : ∃ p, s.list_player[pi]? = some p ∧ p.list_marble[mi]? = some a := by
    unfold getMarble at h
    cases hp : s.list_player[pi]? with
    | none => rw [hp] at h; simp at h
    | some p => rw [hp] at h; exact ⟨p, rfl, h⟩
  have hM : (marbleMatrix s)[pi]? = some p.list_marble := by
    unfold marbleMatrix
    rw [List.getElem?_map, hp]
    rfl
  rw [marbleMatrix_modifyMarble, matrixSet, listModify_eq_const _ _ _ _ hM]
  conv_rhs => rw [listModify_eq_const _ _ _ _ hM]
  rw [listModify_eq_const _ _ _ _ hm]

theorem dealCards_marbles (n : Nat) (ps : List PlayerState) (pile : List Card) :
    ((dealCards n ps pile).1).map (fun p => p.list_marble) = ps.map (fun p => p.list_marble) := by
  induction ps generalizing pile with
  | nil => rfl
  | cons p rest ih => simp [dealCards, ih]

theorem rolloverStep_phase (es : EngineState) (deck : List Card) :
    (rolloverStep es deck).state.phase = es.state.phase := by
  unfold rolloverStep
  by_cases h : es.state.idx_player_active = es.state.idx_player_started <;> simp [h]

theorem rolloverStep_marbles (es : EngineState) (deck : List Card) :
    marbleMatrix (rolloverStep es deck).state = marbleMatrix es.state := by
  unfold rolloverStep
  by_cases h : es.state.idx_player_active = es.state.idx_player_started <;>
    simp [h, marbleMatrix, dealCards_marbles]

theorem advanceStep_phase (es : EngineState) :
    (advanceStep es).state.phase = es.state.phase := by
  unfold advanceStep
  cases es.steps_remaining <;> rfl

theorem advanceStep_marbles (es : EngineState) :
    marbleMatrix (advanceStep es).state = marbleMatrix es.state := by
  unfold advanceStep
  cases es.steps_remaining <;> rfl

theorem foldStep_true (es : EngineState) : foldStep es true = es := rfl

theorem finishTurn_phase (es : EngineState) (deck : List Card) :
    (finishTurn es true deck).state.phase = es.state.phase := by
  unfold finishTurn
  rw [foldStep_true, rolloverStep_phase, advanceStep_phase]

theorem finishTurn_marbles (es : EngineState) (deck : List Card) :
    marbleMatrix (finishTurn es true deck).state = marbleMatrix es.state := by
  unfold finishTurn
  rw [foldStep_true, rolloverStep_marbles, advanceStep_marbles]

theorem erasePlayerCard_marbles (s : GameState) (i : Nat) (c : Card) :
    marbleMatrix (modifyPlayer s i (fun p => { p with list_card := p.list_card.erase c }))
      = marbleMatrix s := by
  show (listModify s.list_player i (fun p => { p with list_card := p.list_card.erase c })).map
      (fun p => p.list_marble) = s.list_player.map (fun p => p.list_marble)
  rw [map_listModify s.list_player i (fun p => { p with list_card := p.list_card.erase c })
      (fun p => p.list_marble) (fun lm => lm) (fun _p => rfl), listModify_id]

theorem modifyPlayer_card_active (s : GameState) (i : Nat) (f : PlayerState → PlayerState) :
    (modifyPlayer s i f).card_active = s.card_active := rfl

theorem tailCardCleanup_phase (s : GameState) (a : Action) :
    (tailCardCleanup s a).phase = s.phase := by
  cases hca : s.card_active with
  | none =>
      by_cases hmem : a.card ∈ (s.list_player[s.idx_player_active]?.getD defaultPlayer).list_card
      · simp [tailCardCleanup, hca, hmem, modifyPlayer]
      · simp [tailCardCleanup, hca, hmem]
  | some c => simp [tailCardCleanup, hca]

theorem tailCardCleanup_marbles (s : GameState) (a : Action) :
    marbleMatrix (tailCardCleanup s a) = marbleMatrix s := by
  cases hca : s.card_active with
  | none =>
      by_cases hmem : a.card ∈ (s.list_player[s.idx_player_active]?.getD defaultPlayer).list_card
      · have he := erasePlayerCard_marbles s s.idx_player_active a.card
        simp only [modifyPlayer, marbleMatrix] at he
        simp [tailCardCleanup, hca, hmem, modifyPlayer, marbleMatrix, he]
      · simp [tailCardCleanup, hca, hmem]
  | some c => simp [tailCardCleanup, hca, marbleMatrix]

theorem getD_map_marble (ps : List PlayerState) (k : Nat) :
    (ps.getD k defaultPlayer).list_marble = (ps.map (fun p => p.list_marble)).getD k [] := by
  induction ps generalizing k with
  | nil => rfl
  | cons p rest ih =>
      cases k with
      | zero => rfl
      | succ n => simpa using ih n

theorem team02_of_matrix (pl pl' : List PlayerState)
    (h : pl.map (fun p => p.list_marble) = pl'.map (fun p => p.list_marble)) :
    team02Finished pl = team02Finished pl' := by
  unfold team02Finished allInFinish
  rw [getD_map_marble, getD_map_marble, h, ← getD_map_marble, ← getD_map_marble]

/-- C1 counterexample: the state after one apply_action call on a fresh
game (identity shuffle) is reachable yet holds 109 cards in total: the
played 2 of spades leaves the hand without entering the discard pile. -/
theorem c1_total_cards_counterexample :
    Reachable c1State ∧ totalCards c1State.state = 109 :=
  ⟨Reachable.step (some c1Action) idDeck (List.Perm.refl _)
      (Reachable.init idDeck (List.Perm.refl _)),
   by decide⟩

/-- C1 amended: the 110-card total holds in every freshly reset game (and
already after the first card played it drops below 110, so it is not an
invariant of apply_action). -/
theorem c1_total_cards_amended (deck : List Card) (hlen : deck.length = 110) :
    totalCards (dogReset deck).state = 110 := by
  simp [dogReset, totalCards, hlen]

/-- Witness for c1_total_cards_amended at the identity shuffle. -/
theorem c1_total_cards_amended_witness :
    idDeck.length = 110 ∧ totalCards (dogReset idDeck).state = 110 :=
  ⟨by decide, c1_total_cards_amended idDeck (by decide)⟩

/-- C2: at the state of test_seven_card_special_positions (rank-7 active,
steps_remaining = 7, marble of player 0 at cell 12) the generator returns
no action at all, where the test and the claim require exactly the single
action (7, 12, 76); moreover applying that action leaves
steps_remaining = 5, not 2, with the card still active. -/
theorem c2_seven_restriction_code_bug :
    getListAction c2State.state = [] ∧
    (applyAction c2State (some c2Action) idDeck).es.steps_remaining = some 5 ∧
    (applyAction c2State (some c2Action) idDeck).es.state.card_active = some ⟨"♠", "7"⟩ := by
  refine ⟨by decide, by decide, by decide⟩

/-- C5: active player 1 holds an Ace and has kennel marbles at 73..75, yet
the generator offers no action whatsoever: the kennel-exit logic only
recognizes cell 64 and always targets cell 0, so players other than
player 0 can never leave the kennel. -/
theorem c5_kennel_exit_code_bug :
    (c5State.state.list_player.getD 1 defaultPlayer).list_card = [⟨"♠", "A"⟩] ∧
    (c5State.state.list_player.getD 1 defaultPlayer).list_marble.any
      (fun m => m.pos == 73) = true ∧
    c5State.state.idx_player_active = 1 ∧
    getListAction c5State.state = [] := by
  refine ⟨by decide, by decide, by decide, by decide⟩

/-- C6: the fresh game has cnt_round = 1, no exchange done and a non-empty
hand, yet the generator offers no exchange action (it requires
cnt_round == 0, which no reachable state satisfies), so the mandatory
round-start exchange is dead code. -/
theorem c6_exchange_code_bug :
    Reachable c6State ∧
    c6State.state.cnt_round = 1 ∧
    c6State.state.bool_card_exchanged = false ∧
    ¬ (c6State.state.list_player.getD 0 defaultPlayer).list_card = [] ∧
    getListAction c6State.state = [] :=
  ⟨Reachable.init idDeck (List.Perm.refl _), by decide, by decide, by decide, by decide⟩

/-- C3 counterexample: a rank-7 action exceeding the budget raises, but on
this run (the first sub-move of the 7) the active card and the
steps_remaining budget are mutated before the check: card_active goes from
none to the 7 and steps_remaining from none to 7. -/
theorem c3_exceeded_counterexample :
    (applyAction c3CState (some c3CAction) idDeck).error =
      some "Exceeded remaining steps for SEVEN." ∧
    c3CState.state.card_active = none ∧
    (applyAction c3CState (some c3CAction) idDeck).es.state.card_active = some ⟨"♠", "7"⟩ ∧
    c3CState.steps_remaining = none ∧
    (applyAction c3CState (some c3CAction) idDeck).es.steps_remaining = some 7 := by
  refine ⟨by decide, by decide, by decide, by decide, by decide⟩

/-- C4 counterexample: active player 1 completes the finish zones of the
1-and-3 team (all marbles in 76..79 and 92..95 after the move) yet the
phase stays RUNNING, because the victory check always looks at players 0
and 2. -/
theorem c4_victory_counterexample :
    (applyAction c4CState (some c4CAction) idDeck).es.state.phase = GamePhase.RUNNING ∧
    ((applyAction c4CState (some c4CAction) idDeck).es.state.list_player.getD 1
        defaultPlayer).list_marble.all (fun m => 76 ≤ m.pos && m.pos ≤ 79) = true ∧
    ((applyAction c4CState (some c4CAction) idDeck).es.state.list_player.getD 3
        defaultPlayer).list_marble.all (fun m => 92 ≤ m.pos && m.pos ≤ 95) = true := by
  refine ⟨by decide, by decide, by decide⟩

/-- C7 counterexample: an action whose pos_from holds no marble is not a
no-op: the card is removed from the hand and the active player index
advances (and no error is raised). -/
theorem c7_silent_noop_counterexample :
    (applyAction c7CState (some c7CAction) idDeck).error = none ∧
    c7CState.state.idx_player_active = 0 ∧
    (applyAction c7CState (some c7CAction) idDeck).es.state.idx_player_active = 1 ∧
    (c7CState.state.list_player.getD 0 defaultPlayer).list_card =
      [⟨"♠", "5"⟩, ⟨"♥", "3"⟩] ∧
    ((applyAction c7CState (some c7CAction) idDeck).es.state.list_player.getD 0
        defaultPlayer).list_card = [⟨"♥", "3"⟩] := by
  refine ⟨by decide, by decide, by decide, by decide, by decide⟩

/-- C8 counterexample: a generic move onto a cell occupied by a second
marble of the active player leaves that marble in place (both marbles end
up on cell 5), instead of displacing it to a kennel slot. -/
theorem c8_capture_counterexample :
    ((applyAction c8CState (some c8CAction) idDeck).es.state.list_player.getD 0
        defaultPlayer).list_marble =
      [⟨5, true⟩, ⟨5, false⟩, ⟨66, false⟩, ⟨67, false⟩] := by
  decide

/-- C9 counterexample: the generator offers the self-swap J action
(J, 0, 5) for player 0, but applying it changes no marble at all: the
swap succeeds only against marbles of other players. -/
theorem c9_jswap_counterexample :
    (⟨⟨"♠", "J"⟩, some 0, some 5, none⟩ : Action) ∈ getListAction c9CState.state ∧
    ((applyAction c9CState (some c9CAction) idDeck).es.state.list_player.getD 0
        defaultPlayer).list_marble =
      [⟨0, false⟩, ⟨5, false⟩, ⟨66, false⟩, ⟨67, false⟩] := by
  refine ⟨by decide, by decide⟩

/-- C10 counterexample: a pass while a 7 is active also moves the active
player's marble from 15 to 12, contradicting that every marble position is
unchanged. -/
theorem c10_pass_seven_counterexample :
    (c10CState.state.list_player.getD 0 defaultPlayer).list_marble.getD 0 defaultMarble =
      ⟨15, false⟩ ∧
    ((applyAction c10CState none idDeck).es.state.list_player.getD 0
        defaultPlayer).list_marble.getD 0 defaultMarble = ⟨12, false⟩ := by
  refine ⟨by decide, by decide⟩

/-- C10 amended: a pass while the active card is a 7 performs the forced
cleanup (the 7 leaves the hand, card_active and steps_remaining become
none, the player index advances by one) and leaves every marble unchanged,
provided additionally that the active player has no marble at cell 15,
player index 1 has no marble at cell 72, and the 7 is in the hand; the
branch otherwise also moves those hard-coded marbles. -/
theorem c10_pass_seven_amended (es : EngineState) (deck : List Card) (cA : Card)
    (hact : es.state.card_active = some cA) (h7 : cA.rank = "7")
    (h15 : (es.state.list_player[es.state.idx_player_active]?.getD defaultPlayer).list_marble.findIdx?
        (fun m => m.pos == 15) = none)
    (h72 : (es.state.list_player[1]?.getD defaultPlayer).list_marble.findIdx?
        (fun m => m.pos == 72) = none)
    (hc : cA ∈ (es.state.list_player[es.state.idx_player_active]?.getD defaultPlayer).list_card) :
    (applyAction es none deck).error = none ∧
    (applyAction es none deck).es =
      ⟨{ es.state with
          list_player := listModify es.state.list_player es.state.idx_player_active
            (fun p => { p with list_card := p.list_card.erase cA }),
          card_active := none,
          idx_player_active := (es.state.idx_player_active + 1) % es.state.cnt_player }, none⟩ := by
  have hbranch : applyAction es none deck = passSevenBranch es cA := by
    simp [applyAction, hact, h7]
  rw [hbranch]
  simp [passSevenBranch, moveFirstMarbleAt, h15, h72, hc, modifyPlayer]

/-- Witness for c10_pass_seven_amended on a concrete mid-sequence state. -/
theorem c10_pass_seven_amended_witness :
    (applyAction c10WState none []).error = none ∧
    (applyAction c10WState none []).es =
      ⟨{ c10WState.state with
          list_player := listModify c10WState.state.list_player c10WState.state.idx_player_active
            (fun p => { p with list_card := p.list_card.erase ⟨"♠", "7"⟩ }),
          card_active := none,
          idx_player_active :=
            (c10WState.state.idx_player_active + 1) % c10WState.state.cnt_player }, none⟩ :=
  c10_pass_seven_amended c10WState [] ⟨"♠", "7"⟩ (by decide) (by decide) (by decide)
    (by decide) (by decide)

/-- C7 amended: a generic-rank action whose pos_from holds no marble of
the active player raises no error and moves no marble, but it is not a
complete no-op: the card is removed from the hand (when held, with no
active card pending) without entering the discard pile, and the active
player index advances (here away from a round rollover). -/
theorem c7_silent_noop_amended (es : EngineState) (deck : List Card) (c : Card) (f t : Int)
    (hact : es.state.card_active = none) (hsteps : es.steps_remaining = none)
    (h7 : ¬ c.rank = "7") (hJ : ¬ c.rank = "J")
    (hnf : (es.state.list_player[es.state.idx_player_active]?.getD defaultPlayer).list_marble.all
        (fun m => m.pos ≥ 68) = false)
    (hfind : (es.state.list_player[es.state.idx_player_active]?.getD
        defaultPlayer).list_marble.findIdx? (fun m => f == m.pos) = none)
    (hc : c ∈ (es.state.list_player[es.state.idx_player_active]?.getD defaultPlayer).list_card)
    (hnoroll : ¬ (es.state.idx_player_active + 1) % es.state.cnt_player
        = es.state.idx_player_started) :
    (applyAction es (some ⟨c, some f, some t, none⟩) deck).error = none ∧
    (applyAction es (some ⟨c, some f, some t, none⟩) deck).es =
      ⟨{ es.state with
          list_player := listModify es.state.list_player es.state.idx_player_active
            (fun p => { p with list_card := p.list_card.erase c }),
          idx_player_active := (es.state.idx_player_active + 1) % es.state.cnt_player }, none⟩ := by
  simp [applyAction, hact, hsteps, h7, hJ, hnf, hfind, hc, hnoroll, genericBranch,
    tailCardCleanup, finishTurn, foldStep, advanceStep, rolloverStep, modifyPlayer]

theorem modifyMarble_phase (s : GameState) (pi mi : Nat) (f : Marble → Marble) :
    (modifyMarble s pi mi f).phase = s.phase := rfl

theorem genericBranch_snd (s : GameState) (act : Action) (t : Int) (hto : act.pos_to = some t) :
    (genericBranch s act).2 = none := by
  cases hfd : (s.list_player[s.idx_player_active]?.getD defaultPlayer).list_marble.findIdx?
      (fun m => act.pos_from == some m.pos) with
  | none => simp [genericBranch, hfd]
  | some mj =>
      simp [genericBranch, hfd, hto]
      try split <;> rfl

theorem c4_victory_amended (es : EngineState) (deck : List Card) (c : Card)
    (f t : Int) (mj : Nat)
    (hact : es.state.card_active = none)
    (h7 : ¬ c.rank = "7") (hJ : ¬ c.rank = "J")
    (hnf : (es.state.list_player[es.state.idx_player_active]?.getD defaultPlayer).list_marble.all
        (fun m => m.pos ≥ 68) = false)
    (hfind : (es.state.list_player[es.state.idx_player_active]?.getD
        defaultPlayer).list_marble.findIdx? (fun m => f == m.pos) = some mj)
    (hphase : es.state.phase = GamePhase.RUNNING) :
    ((applyAction es (some ⟨c, some f, some t, none⟩) deck).es.state.phase = GamePhase.FINISHED
      ↔ team02Finished
          (applyAction es (some ⟨c, some f, some t, none⟩) deck).es.state.list_player = true) := by
  have hsnd : (genericBranch es.state ⟨c, some f, some t, none⟩).2 = none :=
    genericBranch_snd _ _ t rfl
  have happly : (applyAction es (some ⟨c, some f, some t, none⟩) deck).es =
      finishTurn ⟨tailCardCleanup (genericBranch es.state ⟨c, some f, some t, none⟩).1
          ⟨c, some f, some t, none⟩, es.steps_remaining⟩ true deck := by
    simp [applyAction, hact, h7, hJ, hnf, hsnd]
  have hph : (finishTurn ⟨tailCardCleanup (genericBranch es.state ⟨c, some f, some t, none⟩).1
      ⟨c, some f, some t, none⟩, es.steps_remaining⟩ true deck).state.phase
        = (genericBranch es.state ⟨c, some f, some t, none⟩).1.phase := by
    rw [finishTurn_phase]
    exact tailCardCleanup_phase _ _
  have hteam : team02Finished (finishTurn ⟨tailCardCleanup
      (genericBranch es.state ⟨c, some f, some t, none⟩).1
      ⟨c, some f, some t, none⟩, es.steps_remaining⟩ true deck).state.list_player
        = team02Finished (genericBranch es.state ⟨c, some f, some t, none⟩).1.list_player := by
    apply team02_of_matrix
    have h1 := finishTurn_marbles ⟨tailCardCleanup
      (genericBranch es.state ⟨c, some f, some t, none⟩).1
      ⟨c, some f, some t, none⟩, es.steps_remaining⟩ deck
    have h2 := tailCardCleanup_marbles
      (genericBranch es.state ⟨c, some f, some t, none⟩).1 ⟨c, some f, some t, none⟩
    simpa [marbleMatrix] using h1.trans h2
  rw [happly, hph, hteam]
  cases hopp : findOppLastIdx es.state.list_player
      (es.state.list_player[es.state.idx_player_active]?.getD defaultPlayer) (some t) with
  | none =>
      simp [genericBranch, hfind, hopp, hphase]
      split <;> simp_all [modifyMarble_phase]
  | some pm =>
      simp [genericBranch, hfind, hopp, hphase]
      split <;> simp_all [modifyMarble_phase]

theorem marbleMatrix_set_phase (s : GameState) (ph : GamePhase) :
    marbleMatrix { s with phase := ph } = marbleMatrix s := rfl

theorem genericBranch_marbles (s : GameState) (c : Card) (f t : Int) (mj : Nat)
    (hfind : (s.list_player[s.idx_player_active]?.getD defaultPlayer).list_marble.findIdx?
        (fun m => f == m.pos) = some mj) :
    marbleMatrix (genericBranch s ⟨c, some f, some t, none⟩).1 =
      (match findOppLastIdx s.list_player (s.list_player[s.idx_player_active]?.getD defaultPlayer)
          (some t) with
      | some pm => matrixSet (matrixSet (marbleMatrix s) pm.1 pm.2 ⟨72, false⟩)
          s.idx_player_active mj ⟨t, true⟩
      | none => matrixSet (marbleMatrix s) s.idx_player_active mj ⟨t, true⟩) := by
  cases hopp : findOppLastIdx s.list_player
      (s.list_player[s.idx_player_active]?.getD defaultPlayer) (some t) with
  | none =>
      simp only [genericBranch, List.getD_eq_getElem?_getD, Option.some_beq_some, hfind, hopp]
      split
      · rw [marbleMatrix_set_phase, marbleMatrix_modifyMarble_const]
      · rw [marbleMatrix_modifyMarble_const]
  | some pm =>
      simp only [genericBranch, List.getD_eq_getElem?_getD, Option.some_beq_some, hfind, hopp]
      split
      · rw [marbleMatrix_set_phase, marbleMatrix_modifyMarble_const,
            marbleMatrix_modifyMarble_const]
      · rw [marbleMatrix_modifyMarble_const, marbleMatrix_modifyMarble_const]

/-- C8 amended: in a generic move, only a marble of a structurally
distinct player found at pos_to is displaced — to the shared cell 72 and
marked unsafe — while the acting marble moves to pos_to and is marked
safe; when no other player has a marble there (in particular when a second
marble of the active player occupies pos_to) only the acting marble
changes. -/
theorem c8_capture_amended (es : EngineState) (deck : List Card) (c : Card)
    (f t : Int) (mj : Nat)
    (hact : es.state.card_active = none)
    (h7 : ¬ c.rank = "7") (hJ : ¬ c.rank = "J")
    (hnf : (es.state.list_player[es.state.idx_player_active]?.getD defaultPlayer).list_marble.all
        (fun m => m.pos ≥ 68) = false)
    (hfind : (es.state.list_player[es.state.idx_player_active]?.getD
        defaultPlayer).list_marble.findIdx? (fun m => f == m.pos) = some mj) :
    (applyAction es (some ⟨c, some f, some t, none⟩) deck).error = none ∧
    (∀ pj oj : Nat,
      findOppLastIdx es.state.list_player
          (es.state.list_player[es.state.idx_player_active]?.getD defaultPlayer) (some t)
        = some (pj, oj) →
      marbleMatrix (applyAction es (some ⟨c, some f, some t, none⟩) deck).es.state =
        matrixSet (matrixSet (marbleMatrix es.state) pj oj ⟨72, false⟩)
          es.state.idx_player_active mj ⟨t, true⟩) ∧
    (findOppLastIdx es.state.list_player
        (es.state.list_player[es.state.idx_player_active]?.getD defaultPlayer) (some t) = none →
      marbleMatrix (applyAction es (some ⟨c, some f, some t, none⟩) deck).es.state =
        matrixSet (marbleMatrix es.state) es.state.idx_player_active mj ⟨t, true⟩) := by
  have hsnd : (genericBranch es.state ⟨c, some f, some t, none⟩).2 = none :=
    genericBranch_snd _ _ t rfl
  have happly : (applyAction es (some ⟨c, some f, some t, none⟩) deck).es =
      finishTurn ⟨tailCardCleanup (genericBranch es.state ⟨c, some f, some t, none⟩).1
          ⟨c, some f, some t, none⟩, es.steps_remaining⟩ true deck := by
    simp [applyAction, hact, h7, hJ, hnf, hsnd]
  have herr : (applyAction es (some ⟨c, some f, some t, none⟩) deck).error = none := by
    simp [applyAction, hact, h7, hJ, hnf, hsnd]
  have hmm : marbleMatrix (applyAction es (some ⟨c, some f, some t, none⟩) deck).es.state =
      marbleMatrix (genericBranch es.state ⟨c, some f, some t, none⟩).1 := by
    rw [happly, finishTurn_marbles]
    exact tailCardCleanup_marbles _ _
  refine ⟨herr, ?_, ?_⟩
  · intro pj oj hopp
    rw [hmm, genericBranch_marbles es.state c f t mj hfind, hopp]
  · intro hopp
    rw [hmm, genericBranch_marbles es.state c f t mj hfind, hopp]

theorem getMarble_modifyMarble_ne (s : GameState) (pi mi : Nat) (f : Marble → Marble)
    (pj mjj : Nat) (h : ¬ pj = pi) :
    getMarble (modifyMarble s pi mi f) pj mjj = getMarble s pj mjj := by
  unfold getMarble modifyMarble modifyPlayer
  simp [getElem?_listModify, h]

theorem getD_of_getMarble (s : GameState) (pi mi : Nat) (a : Marble)
    (h : getMarble s pi mi = some a) :
    ((s.list_player[pi]?.getD defaultPlayer).list_marble[mi]?.getD defaultMarble) = a := by
  unfold getMarble at h
  cases hp : s.list_player[pi]? with
  | none => rw [hp] at h; simp at h
  | some p =>
      rw [hp] at h
      simp only [Option.some_bind] at h
      simp [hp, h]

theorem jBranch_marbles_swap (s : GameState) (c : Card) (f t : Int) (mj pj oj : Nat)
    (am om : Marble)
    (hfind : (s.list_player[s.idx_player_active]?.getD defaultPlayer).list_marble.findIdx?
        (fun m => f == m.pos) = some mj)
    (hopp : findOppIdx s.list_player (s.list_player[s.idx_player_active]?.getD defaultPlayer)
        (some t) = some (pj, oj))
    (hpj : ¬ pj = s.idx_player_active)
    (ham : getMarble s s.idx_player_active mj = some am)
    (hom : getMarble s pj oj = some om) :
    marbleMatrix (jBranch s ⟨c, some f, some t, none⟩) =
      matrixSet (matrixSet (marbleMatrix s) s.idx_player_active mj ⟨om.pos, am.is_save⟩)
        pj oj ⟨am.pos, om.is_save⟩ := by
  have hmd := getD_of_getMarble s s.idx_player_active mj am ham
  have hod := getD_of_getMarble s pj oj om hom
  simp only [jBranch, List.getD_eq_getElem?_getD, Option.some_beq_some, hfind, hopp, hmd, hod]
  rw [marbleMatrix_modifyMarble_get _ _ _ _ om
        (by rw [getMarble_modifyMarble_ne _ _ _ _ _ _ hpj]; exact hom),
      marbleMatrix_modifyMarble_get _ _ _ _ am ham]

theorem jBranch_marbles_noswap (s : GameState) (c : Card) (f t : Int) (mj : Nat)
    (hfind : (s.list_player[s.idx_player_active]?.getD defaultPlayer).list_marble.findIdx?
        (fun m => f == m.pos) = some mj)
    (hopp : findOppIdx s.list_player (s.list_player[s.idx_player_active]?.getD defaultPlayer)
        (some t) = none) :
    jBranch s ⟨c, some f, some t, none⟩ = s := by
  simp [jBranch, List.getD_eq_getElem?_getD, Option.some_beq_some, hfind, hopp]

/-- C9 amended: applying a rank-J action with the active player's marble
at pos_from exchanges positions (and only positions) of that marble and a
structurally distinct player's marble at pos_to, with every other marble
unchanged; when no other player has a marble at pos_to — the generated
self-swap case — no marble changes at all. -/
theorem c9_jswap_amended (es : EngineState) (deck : List Card) (c : Card)
    (f t : Int) (mj : Nat)
    (hact : es.state.card_active = none)
    (hrank : c.rank = "J")
    (hnf : (es.state.list_player[es.state.idx_player_active]?.getD defaultPlayer).list_marble.all
        (fun m => m.pos ≥ 68) = false)
    (hfind : (es.state.list_player[es.state.idx_player_active]?.getD
        defaultPlayer).list_marble.findIdx? (fun m => f == m.pos) = some mj) :
    (applyAction es (some ⟨c, some f, some t, none⟩) deck).error = none ∧
    (∀ pj oj : Nat, ∀ am om : Marble,
      findOppIdx es.state.list_player
          (es.state.list_player[es.state.idx_player_active]?.getD defaultPlayer) (some t)
        = some (pj, oj) →
      ¬ pj = es.state.idx_player_active →
      getMarble es.state es.state.idx_player_active mj = some am →
      getMarble es.state pj oj = some om →
      marbleMatrix (applyAction es (some ⟨c, some f, some t, none⟩) deck).es.state =
        matrixSet (matrixSet (marbleMatrix es.state) es.state.idx_player_active mj
          ⟨om.pos, am.is_save⟩) pj oj ⟨am.pos, om.is_save⟩) ∧
    (findOppIdx es.state.list_player
        (es.state.list_player[es.state.idx_player_active]?.getD defaultPlayer) (some t) = none →
      marbleMatrix (applyAction es (some ⟨c, some f, some t, none⟩) deck).es.state =
        marbleMatrix es.state) := by
  have h7 : ¬ c.rank = "7" := by rw [hrank]; decide
  have happly : (applyAction es (some ⟨c, some f, some t, none⟩) deck).es =
      finishTurn ⟨tailCardCleanup (jBranch es.state ⟨c, some f, some t, none⟩)
          ⟨c, some f, some t, none⟩, es.steps_remaining⟩ true deck := by
    simp [applyAction, hact, h7, hrank, hnf]
  have herr : (applyAction es (some ⟨c, some f, some t, none⟩) deck).error = none := by
    simp [applyAction, hact, h7, hrank, hnf]
  have hmm : marbleMatrix (applyAction es (some ⟨c, some f, some t, none⟩) deck).es.state =
      marbleMatrix (jBranch es.state ⟨c, some f, some t, none⟩) := by
    rw [happly, finishTurn_marbles]
    exact tailCardCleanup_marbles _ _
  refine ⟨herr, ?_, ?_⟩
  · intro pj oj am om hopp hpj ham hom
    rw [hmm]
    exact jBranch_marbles_swap es.state c f t mj pj oj am om hfind hopp hpj ham hom
  · intro hopp
    rw [hmm, jBranch_marbles_noswap es.state c f t mj hfind hopp]

/-- C3 amended: with a rank-7 sequence already in progress
(steps_remaining set), apply_action raises the exceeded-steps error
exactly when the sub-move requests more than the remaining budget, and on
that raising run the GameState and steps_remaining are unchanged; when
the raise happens on the first sub-move instead, card_active and
steps_remaining are mutated before the check (see the counterexample). -/
theorem c3_exceeded_amended (es : EngineState) (deck : List Card) (c cA : Card)
    (f t r : Int)
    (hact : es.state.card_active = some cA) (h7 : cA.rank = "7")
    (hr : es.steps_remaining = some r)
    (hnf : (es.state.list_player[es.state.idx_player_active]?.getD defaultPlayer).list_marble.all
        (fun m => m.pos ≥ 68) = false) :
    ((applyAction es (some ⟨c, some f, some t, none⟩) deck).error =
        some "Exceeded remaining steps for SEVEN." ↔ sevenStepsUsed f t > r) ∧
    (sevenStepsUsed f t > r →
      (applyAction es (some ⟨c, some f, some t, none⟩) deck).es = es) := by
  have hbranch : applyAction es (some ⟨c, some f, some t, none⟩) deck =
      sevenBranch es ⟨c, some f, some t, none⟩ cA := by
    simp [applyAction, hact, h7, hnf]
  rw [hbranch]
  by_cases hgt : sevenStepsUsed f t > r
  · have hres : sevenBranch es ⟨c, some f, some t, none⟩ cA =
        ⟨⟨es.state, some r⟩, some "Exceeded remaining steps for SEVEN."⟩ := by
      simp [sevenBranch, hr, hgt]
    rw [hres]
    refine ⟨⟨fun _ => hgt, fun _ => rfl⟩, fun _ => ?_⟩
    show (⟨es.state, some r⟩ : EngineState) = es
    rw [← hr]
  · have herr : ¬ (sevenBranch es ⟨c, some f, some t, none⟩ cA).error =
        some "Exceeded remaining steps for SEVEN." := by
      simp only [sevenBranch, hr, hgt, if_false]
      split
      · simp
      · split
        · split
          · simp
          · simp
        · simp
    refine ⟨⟨fun h => absurd h herr, fun h => absurd h hgt⟩, fun h => absurd h hgt⟩

/-- Witness for c3_exceeded_amended: 4 steps requested with 1 remaining. -/
theorem c3_exceeded_amended_witness :
    ((applyAction c3WState (some ⟨⟨"♠", "7"⟩, some 76, some 80, none⟩) []).error =
        some "Exceeded remaining steps for SEVEN." ↔ sevenStepsUsed 76 80 > 1) ∧
    (sevenStepsUsed 76 80 > 1 →
      (applyAction c3WState (some ⟨⟨"♠", "7"⟩, some 76, some 80, none⟩) []).es = c3WState) :=
  c3_exceeded_amended c3WState [] ⟨"♠", "7"⟩ ⟨"♠", "7"⟩ 76 80 1 (by decide) (by decide)
    (by decide) (by decide)

/-- Witness for c4_victory_amended: player 1 moves while players 0 and 2
fill their finish zones, and the phase flips to FINISHED accordingly. -/
theorem c4_victory_amended_witness :
    ((applyAction c4WState (some ⟨⟨"♠", "5"⟩, some 10, some 15, none⟩) []).es.state.phase
        = GamePhase.FINISHED
      ↔ team02Finished
          (applyAction c4WState (some ⟨⟨"♠", "5"⟩, some 10, some 15, none⟩)
            []).es.state.list_player = true) :=
  c4_victory_amended c4WState [] ⟨"♠", "5"⟩ 10 15 0 (by decide) (by decide) (by decide)
    (by decide) (by decide) (by decide)

/-- Witness for c7_silent_noop_amended at a state with no marble at 30. -/
theorem c7_silent_noop_amended_witness :
    (applyAction c7WState (some ⟨⟨"♠", "5"⟩, some 30, some 35, none⟩) []).error = none ∧
    (applyAction c7WState (some ⟨⟨"♠", "5"⟩, some 30, some 35, none⟩) []).es =
      ⟨{ c7WState.state with
          list_player := listModify c7WState.state.list_player c7WState.state.idx_player_active
            (fun p => { p with list_card := p.list_card.erase ⟨"♠", "5"⟩ }),
          idx_player_active :=
            (c7WState.state.idx_player_active + 1) % c7WState.state.cnt_player }, none⟩ :=
  c7_silent_noop_amended c7WState [] ⟨"♠", "5"⟩ 30 35 (by decide) (by decide) (by decide)
    (by decide) (by decide) (by decide) (by decide) (by decide)

/-- Witness for c8_capture_amended: player 1's marble at cell 5 is the
scan result (player index 1, marble index 0). -/
theorem c8_capture_amended_witness :
    (applyAction c8WState (some ⟨⟨"♠", "5"⟩, some 0, some 5, none⟩) []).error = none ∧
    (∀ pj oj : Nat,
      findOppLastIdx c8WState.state.list_player
          (c8WState.state.list_player[c8WState.state.idx_player_active]?.getD defaultPlayer)
          (some 5) = some (pj, oj) →
      marbleMatrix (applyAction c8WState (some ⟨⟨"♠", "5"⟩, some 0, some 5, none⟩) []).es.state =
        matrixSet (matrixSet (marbleMatrix c8WState.state) pj oj ⟨72, false⟩)
          c8WState.state.idx_player_active 0 ⟨5, true⟩) ∧
    (findOppLastIdx c8WState.state.list_player
        (c8WState.state.list_player[c8WState.state.idx_player_active]?.getD defaultPlayer)
        (some 5) = none →
      marbleMatrix (applyAction c8WState (some ⟨⟨"♠", "5"⟩, some 0, some 5, none⟩) []).es.state =
        matrixSet (marbleMatrix c8WState.state) c8WState.state.idx_player_active 0 ⟨5, true⟩) :=
  c8_capture_amended c8WState [] ⟨"♠", "5"⟩ 0 5 0 (by decide) (by decide) (by decide)
    (by decide) (by decide)

/-- Witness for c9_jswap_amended: the J swap against player 1's marble. -/
theorem c9_jswap_amended_witness :
    (applyAction c9WState (some ⟨⟨"♠", "J"⟩, some 0, some 5, none⟩) []).error = none ∧
    (∀ pj oj : Nat, ∀ am om : Marble,
      findOppIdx c9WState.state.list_player
          (c9WState.state.list_player[c9WState.state.idx_player_active]?.getD defaultPlayer)
          (some 5) = some (pj, oj) →
      ¬ pj = c9WState.state.idx_player_active →
      getMarble c9WState.state c9WState.state.idx_player_active 0 = some am →
      getMarble c9WState.state pj oj = some om →
      marbleMatrix (applyAction c9WState (some ⟨⟨"♠", "J"⟩, some 0, some 5, none⟩) []).es.state =
        matrixSet (matrixSet (marbleMatrix c9WState.state) c9WState.state.idx_player_active 0
          ⟨om.pos, am.is_save⟩) pj oj ⟨am.pos, om.is_save⟩) ∧
    (findOppIdx c9WState.state.list_player
        (c9WState.state.list_player[c9WState.state.idx_player_active]?.getD defaultPlayer)
        (some 5) = none →
      marbleMatrix (applyAction c9WState (some ⟨⟨"♠", "J"⟩, some 0, some 5, none⟩) []).es.state =
        marbleMatrix c9WState.state) :=
  c9_jswap_amended c9WState [] ⟨"♠", "J"⟩ 0 5 0 (by decide) (by decide) (by decide) (by decide)

end DogGame
